import Mathlib

/-!
Shallow embedding of the StockSig technical-analysis pipeline
(`src/analysis/indicators.py`, `patterns.py`, `signals.py`, `backtest.py`).

Modelling conventions:
* A pandas column is a function `Nat → _` over row positions; a column that can
  hold NaN is `Nat → Option Q`, with `none` playing the role of NaN.
* Float arithmetic is modelled over `Q` (every Python float is a rational), as
  the spec allows ("within floating-point tolerance").  The two places where
  the source takes a real square root (`rolling().std()` and the Sharpe
  ratio's `std`/`sqrt(252)`) are modelled over `R` with `Real.sqrt`.
* pandas NaN semantics are made explicit: elementwise arithmetic propagates
  `none`; comparisons against NaN are `false`; `cumsum`, `cummax` and `max`
  skip NaN entries (`skipna=True` defaults); `shift(1)` introduces a leading
  NaN; `diff` at row 0 is NaN.  Division is modelled as `none` when the
  denominator is 0 (the one divergence from IEEE, which would give an
  infinity; no proved statement depends on a zero denominator).
-/

set_option autoImplicit false

namespace StockSig

/-! ### Option-valued (NaN-aware) scalar operations -/

/-- Elementwise addition, NaN-propagating (pandas `+`). -/
def oadd : Option ℚ → Option ℚ → Option ℚ
  | some x, some y => some (x + y)
  | _, _ => none

/-- Elementwise subtraction, NaN-propagating (pandas `-`). -/
def osub : Option ℚ → Option ℚ → Option ℚ
  | some x, some y => some (x - y)
  | _, _ => none

/-- Elementwise multiplication, NaN-propagating (pandas `*`). -/
def omul : Option ℚ → Option ℚ → Option ℚ
  | some x, some y => some (x * y)
  | _, _ => none

/-- Elementwise division; NaN-propagating, and NaN on a zero denominator. -/
def odiv : Option ℚ → Option ℚ → Option ℚ
  | some x, some y => if y = 0 then none else some (x / y)
  | _, _ => none

/-- NaN-skipping binary maximum, the combining step of pandas `max`/`cummax`
(`skipna=True`). -/
def omax : Option ℚ → Option ℚ → Option ℚ
  | none, b => b
  | some x, none => some x
  | some x, some y => some (max x y)

/-- NaN-skipping maximum of the first `n` entries of a column
(pandas `Series.max()` over a length-`n` series; NaN when no entry is
defined). -/
def seriesMax (s : ℕ → Option ℚ) : ℕ → Option ℚ
  | 0 => none
  | n + 1 => omax (seriesMax s n) (s n)

/-! ### Indicator engine (`src/analysis/indicators.py`)

All rolling windows use `min_periods=1`, so at row `t` the window holds
`min w (t+1)` trailing values. -/

/-- Number of observations in a `min_periods=1` trailing window of nominal
width `w` at row `t`. -/
def winLen (w t : ℕ) : ℕ := min w (t + 1)

/-- Trailing-window sum of width `w` ending at row `t`. -/
def winSum (w : ℕ) (f : ℕ → ℚ) (t : ℕ) : ℚ :=
  ∑ j ∈ Finset.range (winLen w t), f (t - j)

/-- Rolling mean with `min_periods=1` (`close.rolling(window=w, min_periods=1).mean()`). -/
def rollMean (w : ℕ) (f : ℕ → ℚ) (t : ℕ) : ℚ :=
  winSum w f t / (winLen w t : ℚ)

/-- Simple moving average column (`sma_20`, `sma_50`). -/
def sma_col (w : ℕ) (close : ℕ → ℚ) : ℕ → ℚ := rollMean w close

/-- Exponential weighted mean with smoothing factor `α`
(`ewm(span=s, adjust=False).mean()` has `α = 2/(s+1)`), seeded at the first
value. -/
def ewmRec (α : ℚ) (f : ℕ → ℚ) : ℕ → ℚ
  | 0 => f 0
  | t + 1 => α * f (t + 1) + (1 - α) * ewmRec α f t

/-- Exponential moving average column with span `s` (`ema_12`, `ema_26`). -/
def ema_col (s : ℕ) (close : ℕ → ℚ) : ℕ → ℚ := ewmRec (2 / (s + 1 : ℚ)) close

/-- One-step price difference clipped to gains
(`delta.where(delta > 0, 0)`; the leading NaN of `diff()` compares as
not-greater-than-0, so row 0 is 0). -/
def gain_col (close : ℕ → ℚ) (t : ℕ) : ℚ :=
  match t with
  | 0 => 0
  | t + 1 => if close (t + 1) - close t > 0 then close (t + 1) - close t else 0

/-- One-step price difference clipped to losses (`-delta.where(delta < 0, 0)`). -/
def loss_col (close : ℕ → ℚ) (t : ℕ) : ℚ :=
  match t with
  | 0 => 0
  | t + 1 => if close (t + 1) - close t < 0 then -(close (t + 1) - close t) else 0

/-- The epsilon the source adds to the RSI denominator (`1e-10`). -/
def rsiEps : ℚ := 1 / 10 ^ 10

/-- Relative strength `rs = avg_gain / (avg_loss + 1e-10)`. -/
def rs_col (w : ℕ) (close : ℕ → ℚ) (t : ℕ) : ℚ :=
  rollMean w (gain_col close) t / (rollMean w (loss_col close) t + rsiEps)

/-- RSI column `rsi_14` (default `window=14`):
`100 - 100 / (1 + rs)`. -/
def rsi_col (w : ℕ) (close : ℕ → ℚ) (t : ℕ) : ℚ :=
  100 - 100 / (1 + rs_col w close t)

/-- Bollinger middle band `bb_middle`: rolling mean of width 20,
`min_periods=1`. -/
def bb_middle_col (close : ℕ → ℚ) : ℕ → ℚ := rollMean 20 close

/-- Sample variance (`ddof=1`) of the `min_periods=1` trailing window of
nominal width `w` at row `t`; only meaningful for `t ≥ 1` (two or more
observations). -/
def rollVar (w : ℕ) (f : ℕ → ℚ) (t : ℕ) : ℚ :=
  (∑ j ∈ Finset.range (winLen w t), (f (t - j) - rollMean w f t) ^ 2) /
    ((winLen w t : ℚ) - 1)

/-- Rolling sample standard deviation
(`close.rolling(window=20, min_periods=1).std()`).  A single observation has
no sample standard deviation (`ddof=1`), so row 0 is NaN; later rows take the
real square root of the sample variance. -/
noncomputable def bb_std_col (close : ℕ → ℚ) (t : ℕ) : Option ℝ :=
  if t = 0 then none else some (Real.sqrt ((rollVar 20 close t : ℚ) : ℝ))

/-- Upper Bollinger band `bb_upper = bb_middle + std * 2`. -/
noncomputable def bb_upper_col (close : ℕ → ℚ) (t : ℕ) : Option ℝ :=
  (bb_std_col close t).map (fun s => ((bb_middle_col close t : ℚ) : ℝ) + s * 2)

/-- Lower Bollinger band `bb_lower = bb_middle - std * 2`. -/
noncomputable def bb_lower_col (close : ℕ → ℚ) (t : ℕ) : Option ℝ :=
  (bb_std_col close t).map (fun s => ((bb_middle_col close t : ℚ) : ℝ) - s * 2)

/-- MACD line `macd = ema_12 - ema_26`. -/
def macd_col (close : ℕ → ℚ) (t : ℕ) : ℚ := ema_col 12 close t - ema_col 26 close t

/-- MACD signal line: `macd.ewm(span=9, adjust=False).mean()`. -/
def macd_signal_col (close : ℕ → ℚ) : ℕ → ℚ := ewmRec (2 / 10) (macd_col close)

/-- MACD histogram `macd_hist = macd - macd_signal`. -/
def macd_hist_col (close : ℕ → ℚ) (t : ℕ) : ℚ :=
  macd_col close t - macd_signal_col close t

/-! ### Signal generator (`src/analysis/signals.py`)

`SignalGenerator.generate_signals` reads one row of the enriched table at a
time; a row carries the indicator columns (always populated by the pipeline),
the Bollinger bands and support/resistance levels (nullable), and the six
pattern-marker columns.  Comparisons against a NaN (absent) level are `false`,
exactly as in pandas. -/

/-- One row of the enriched table consumed by the signal generator. -/
structure EnrichedRow (K : Type) where
  close : K
  sma_20 : K
  sma_50 : K
  ema_12 : K
  ema_26 : K
  rsi_14 : K
  macd : K
  macd_signal : K
  bb_upper : Option K
  bb_lower : Option K
  hs_pattern : K
  double_top : K
  double_bottom : K
  triangle_asc : K
  triangle_desc : K
  triangle_sym : K
  support : Option K
  resistance : Option K

variable {K : Type} [LinearOrderedField K]

/-- Comparison `a < b` against a nullable right operand; `false` on NaN
(pandas elementwise `<`). -/
def oltR (a : K) (b : Option K) : Bool :=
  match b with
  | some y => decide (a < y)
  | none => false

/-- Comparison `a ≤ b` against a nullable right operand; `false` on NaN. -/
def oleR (a : K) (b : Option K) : Bool :=
  match b with
  | some y => decide (a ≤ y)
  | none => false

/-- Comparison `a > b` against a nullable right operand; `false` on NaN. -/
def ogtR (a : K) (b : Option K) : Bool :=
  match b with
  | some y => decide (y < a)
  | none => false

/-- Comparison `a ≥ b` against a nullable right operand; `false` on NaN. -/
def ogeR (a : K) (b : Option K) : Bool :=
  match b with
  | some y => decide (y ≤ a)
  | none => false

/-- Moving-average sub-signal: `+1` when `ema_12 > ema_26` and
`sma_20 > sma_50`, `-1` when both comparisons are reversed, else `0`
(the two assignments in the source have disjoint conditions). -/
def ma_signal (r : EnrichedRow K) : ℤ :=
  if r.ema_12 < r.ema_26 ∧ r.sma_20 < r.sma_50 then -1
  else if r.ema_26 < r.ema_12 ∧ r.sma_50 < r.sma_20 then 1
  else 0

/-- MACD sub-signal: `+1` when `macd > macd_signal`, `-1` when reversed. -/
def macd_sub_signal (r : EnrichedRow K) : ℤ :=
  if r.macd < r.macd_signal then -1
  else if r.macd_signal < r.macd then 1
  else 0

/-- RSI sub-signal: `+1` when `rsi_14 < 30` (oversold), `-1` when
`rsi_14 > 70` (overbought). -/
def rsi_signal (r : EnrichedRow K) : ℤ :=
  if r.rsi_14 < 30 then 1
  else if (70 : K) < r.rsi_14 then -1
  else 0

/-- Bollinger sub-signal: `+1` when `close < bb_lower`, `-1` when
`close > bb_upper`.  The source assigns the `-1` case second, so it wins if
both conditions somehow hold; the model checks it first. -/
def bb_signal (r : EnrichedRow K) : ℤ :=
  if ogtR r.close r.bb_upper then -1
  else if oltR r.close r.bb_lower then 1
  else 0

/-- Pattern sub-signal: `+1` for each active bullish marker
(`double_bottom`, `triangle_asc`, `triangle_sym` equal to 1) and `-1` for
each active bearish marker (`double_top`, `hs_pattern`, `triangle_desc`
equal to -1).  All six columns exist in the pipeline, so the source's
`if pattern in columns` guards are taken as true. -/
def pattern_signal (r : EnrichedRow K) : ℤ :=
  (if r.double_bottom = 1 then 1 else 0) + (if r.triangle_asc = 1 then 1 else 0) +
    (if r.triangle_sym = 1 then 1 else 0) - (if r.double_top = -1 then 1 else 0) -
    (if r.hs_pattern = -1 then 1 else 0) - (if r.triangle_desc = -1 then 1 else 0)

/-- Support/resistance sub-signal: `+1` when `close ≤ support`, `-1` when
`close ≥ resistance`; the resistance assignment runs last in the source and
overwrites, so it is checked first here. -/
def sr_signal (r : EnrichedRow K) : ℤ :=
  if ogeR r.close r.resistance then -1
  else if oleR r.close r.support then 1
  else 0

/-- Composite score: the weighted sum of the six sub-signals with the
source's weights `ma=2.0, macd=1.5, rsi=1.0, bollinger=1.0, pattern=2.0,
sr=1.5`. -/
def composite_score (r : EnrichedRow K) : K :=
  2 * (ma_signal r : ℤ) + (3 / 2 : K) * (macd_sub_signal r : ℤ) +
    1 * (rsi_signal r : ℤ) + 1 * (bb_signal r : ℤ) +
    2 * (pattern_signal r : ℤ) + (3 / 2 : K) * (sr_signal r : ℤ)

/-- Final decision: the source first marks `+1` where `composite_score >= 3`
and then `-1` where `composite_score <= -3` (the overwrite order is
irrelevant since the conditions are disjoint). -/
def final_signal (r : EnrichedRow K) : ℤ :=
  if composite_score r ≤ -3 then -1
  else if (3 : K) ≤ composite_score r then 1
  else 0

/-- One row of the signal table produced by `generate_signals`. -/
structure SignalRow (K : Type) where
  ma_signal : ℤ
  macd_signal : ℤ
  rsi_signal : ℤ
  bb_signal : ℤ
  pattern_signal : ℤ
  sr_signal : ℤ
  composite_score : K
  signal : ℤ

/-- Embedding of `SignalGenerator.generate_signals`, one output row per input row. -/
def generate_signals (rows : ℕ → EnrichedRow K) (t : ℕ) : SignalRow K :=
  { ma_signal := ma_signal (rows t)
    macd_signal := macd_sub_signal (rows t)
    rsi_signal := rsi_signal (rows t)
    bb_signal := bb_signal (rows t)
    pattern_signal := pattern_signal (rows t)
    sr_signal := sr_signal (rows t)
    composite_score := composite_score (rows t)
    signal := final_signal (rows t) }

/-! ### Backtester (`src/analysis/backtest.py`)

`Backtester.run_backtest(initial_capital, commission)` works over the price
table's `close` column and the signal table's `signal` column.  The pandas
pipeline is reproduced operation by operation:
`signals['signal'].shift(1)`, `.cumsum()`, `.diff()`, the cash ledger, the
portfolio total, `pct_change().fillna(0)`, `cummax`, drawdown and Sharpe. -/

/-- Embedding of `signals['signal'].shift(1)`: a leading NaN, then the previous decision
(ints become floats under the shift). -/
def shifted_signal (sig : ℕ → ℤ) (t : ℕ) : Option ℚ :=
  match t with
  | 0 => none
  | t + 1 => some (sig t : ℚ)

/-- pandas `Series.cumsum()` (`skipna=True`): NaN rows stay NaN, other rows
accumulate the defined values up to and including the row. -/
def ocumsum (s : ℕ → Option ℚ) (t : ℕ) : Option ℚ :=
  match s t with
  | none => none
  | some _ => some (∑ k ∈ Finset.range (t + 1), (s k).getD 0)

/-- pandas `Series.diff()`: NaN at row 0, and NaN-propagating subtraction of
the previous row elsewhere. -/
def odiff (s : ℕ → Option ℚ) (t : ℕ) : Option ℚ :=
  match t with
  | 0 => none
  | t + 1 => osub (s (t + 1)) (s t)

/-- Position column: `signals['signal'].shift(1).cumsum()`. -/
def position_col (sig : ℕ → ℤ) : ℕ → Option ℚ :=
  ocumsum (shifted_signal sig)

/-- Holdings column: `positions['position'] * data['close']`. -/
def holdings_col (close : ℕ → ℚ) (sig : ℕ → ℤ) (t : ℕ) : Option ℚ :=
  omul (position_col sig t) (some (close t))

/-- Per-row trade ledger entry
`positions['position'].diff() * data['close'] * (1 + commission)`. -/
def trade_cost_col (close : ℕ → ℚ) (sig : ℕ → ℤ) (commission : ℚ) (t : ℕ) :
    Option ℚ :=
  omul (omul (odiff (position_col sig) t) (some (close t))) (some (1 + commission))

/-- Cash column:
`initial_capital - (position.diff() * close * (1 + commission)).cumsum()`. -/
def cash_col (close : ℕ → ℚ) (sig : ℕ → ℤ) (capital commission : ℚ) (t : ℕ) :
    Option ℚ :=
  osub (some capital) (ocumsum (trade_cost_col close sig commission) t)

/-- Portfolio total: `cash + holdings`. -/
def total_col (close : ℕ → ℚ) (sig : ℕ → ℤ) (capital commission : ℚ) (t : ℕ) :
    Option ℚ :=
  oadd (cash_col close sig capital commission t) (holdings_col close sig t)

/-- pandas `pct_change()` of a column (previous-row ratio minus one; NaN at
row 0 and wherever either operand is NaN or the previous value is 0). -/
def pct_change (s : ℕ → Option ℚ) (t : ℕ) : Option ℚ :=
  match t with
  | 0 => none
  | t + 1 => osub (odiv (s (t + 1)) (s t)) (some 1)

/-- Returns column: `portfolio['total'].pct_change().fillna(0)`. -/
def returns_col (close : ℕ → ℚ) (sig : ℕ → ℤ) (capital commission : ℚ) (t : ℕ) : ℚ :=
  (pct_change (total_col close sig capital commission) t).getD 0

/-- pandas `Series.cummax()` (`skipna=True`): NaN rows stay NaN, other rows
hold the maximum of the defined values so far. -/
def ocummax (s : ℕ → Option ℚ) (t : ℕ) : Option ℚ :=
  match s t with
  | none => none
  | some _ => seriesMax s (t + 1)

/-- Drawdown of an arbitrary equity column: `(cum_max - total) / cum_max`. -/
def drawdown_of (tot : ℕ → Option ℚ) (t : ℕ) : Option ℚ :=
  odiv (osub (ocummax tot t) (tot t)) (ocummax tot t)

/-- Drawdown column: `(cum_max - total) / cum_max` over the portfolio
total. -/
def drawdown_col (close : ℕ → ℚ) (sig : ℕ → ℤ) (capital commission : ℚ) (t : ℕ) :
    Option ℚ :=
  drawdown_of (total_col close sig capital commission) t

/-- Reported maximum drawdown: `drawdown.max()` over the `n` rows of the
run (NaN when every drawdown entry is NaN). -/
def max_drawdown (close : ℕ → ℚ) (sig : ℕ → ℤ) (capital commission : ℚ) (n : ℕ) :
    Option ℚ :=
  seriesMax (drawdown_col close sig capital commission) n

/-- Arithmetic mean of the first `n` entries of the (fully defined) returns
column (`returns.mean()`). -/
def series_mean (f : ℕ → ℚ) (n : ℕ) : ℚ :=
  (∑ t ∈ Finset.range n, f t) / (n : ℚ)

/-- Sample variance (`ddof=1`) of the first `n` entries, the square of
`returns.std()`. -/
def series_var (f : ℕ → ℚ) (n : ℕ) : ℚ :=
  (∑ t ∈ Finset.range n, (f t - series_mean f n) ^ 2) / ((n : ℚ) - 1)

/-- Reported Sharpe ratio over a run of `n` bars:
`returns.mean() / returns.std() * sqrt(252)` when `len(returns) > 1` and
`returns.std() != 0`, else the documented default `0`.  (`returns.std()` is
the real square root of the sample variance.) -/
noncomputable def sharpe (close : ℕ → ℚ) (sig : ℕ → ℤ) (capital commission : ℚ)
    (n : ℕ) : ℝ :=
  let rets := returns_col close sig capital commission
  if 1 < n ∧ Real.sqrt ((series_var rets n : ℚ) : ℝ) ≠ 0 then
    ((series_mean rets n : ℚ) : ℝ) / Real.sqrt ((series_var rets n : ℚ) : ℝ) *
      Real.sqrt 252
  else 0

/-! ### Pattern engine (`src/analysis/patterns.py`)

Every detector scans `for i in range(window, len(df) - window)` and writes
confirmation markers into a zero-initialised array.  Slices `f[a:b]` are
modelled by index ranges `[a, b)`; `np.argmax`/`np.argmin` return the first
position attaining the extremum.  numpy raises on an empty-slice reduction
(which `detect_head_shoulders` can hit via `low[left_idx:head_idx]` when the
window maximum sits in its left half); the model returns the junk value at
the left endpoint there instead — no proved statement evaluates a detector
body, only the loop range. -/

/-- The indices `range(window, n - window)` scanned by every detector
(empty whenever `n ≤ 2 * window`). -/
def loopIdx (w n : ℕ) : List ℕ := (List.range (n - 2 * w)).map (· + w)

/-- Maximum of `f` over the slice `[a, b)` (`f[a:b].max()`; junk `f a` on an
empty slice, where numpy would raise). -/
def maxSlice (f : ℕ → ℚ) (a b : ℕ) : ℚ :=
  ((List.range (b - a)).map (· + a)).foldl (fun m j => max m (f j)) (f a)

/-- Minimum of `f` over the slice `[a, b)`. -/
def minSlice (f : ℕ → ℚ) (a b : ℕ) : ℚ :=
  ((List.range (b - a)).map (· + a)).foldl (fun m j => min m (f j)) (f a)

/-- First index in `[a, b)` attaining the maximum of `f`
(`a + np.argmax(f[a:b])`; junk `a` on an empty slice). -/
def argmaxSlice (f : ℕ → ℚ) (a b : ℕ) : ℕ :=
  ((List.range (b - a)).map (· + a)).foldl (fun best j => if f best < f j then j else best) a

/-- First index in `[a, b)` attaining the minimum of `f`. -/
def argminSlice (f : ℕ → ℚ) (a b : ℕ) : ℕ :=
  ((List.range (b - a)).map (· + a)).foldl (fun best j => if f j < f best then j else best) a

/-- Slope of the degree-1 least-squares fit of `np.polyfit(range(m), ys, 1)`
where `ys j = f (a + j)` for `j < m`. -/
def lsSlope (f : ℕ → ℚ) (a m : ℕ) : ℚ :=
  let sx : ℚ := ∑ j ∈ Finset.range m, (j : ℚ)
  let sy : ℚ := ∑ j ∈ Finset.range m, f (a + j)
  let sxy : ℚ := ∑ j ∈ Finset.range m, (j : ℚ) * f (a + j)
  let sxx : ℚ := ∑ j ∈ Finset.range m, (j : ℚ) ^ 2
  ((m : ℚ) * sxy - sx * sy) / ((m : ℚ) * sxx - sx ^ 2)

/-- Embedding of `PatternDetector.detect_head_shoulders` (marks `-1` at the right-shoulder
index when the formation confirms). -/
def detect_head_shoulders (high low : ℕ → ℚ) (w n : ℕ) : ℕ → ℚ :=
  (loopIdx w n).foldl
    (fun pat i =>
      let left_high := maxSlice high (i - w) i
      let left_idx := argmaxSlice high (i - w) i
      let head_high := maxSlice high (i - w) (i + w)
      let head_idx := argmaxSlice high (i - w) (i + w)
      let right_high := maxSlice high i (i + w)
      let right_idx := argmaxSlice high i (i + w)
      let neckline_low := minSlice low left_idx head_idx
      if left_high < head_high ∧ right_high < head_high ∧
          neckline_low < left_high ∧ neckline_low < right_high ∧
          |left_high - right_high| < (2 / 100) * head_high ∧
          left_idx < head_idx ∧ head_idx < right_idx then
        Function.update pat right_idx (-1)
      else pat)
    (fun _ => 0)

/-- Which of the two double-extremum formations to scan for. -/
inductive DTKind : Type
  | top : DTKind
  | bottom : DTKind

/-- Embedding of `PatternDetector.detect_double_top_bottom` (double top marks `-1`, double
bottom marks `+1`, at the second extremum's index). -/
def detect_double_top_bottom (high low : ℕ → ℚ) (kind : DTKind) (w n : ℕ) :
    ℕ → ℚ :=
  (loopIdx w n).foldl
    (fun pat i =>
      match kind with
      | DTKind.top =>
        let peak1 := maxSlice high (i - w) i
        let peak1_idx := argmaxSlice high (i - w) i
        let peak2 := maxSlice high i (i + w)
        let peak2_idx := argmaxSlice high i (i + w)
        let trough := minSlice low peak1_idx peak2_idx
        if |peak1 - peak2| < (2 / 100) * peak1 ∧ trough < peak1 ∧
            w / 2 ≤ peak2_idx - peak1_idx then
          Function.update pat peak2_idx (-1)
        else pat
      | DTKind.bottom =>
        let trough1 := minSlice low (i - w) i
        let trough1_idx := argminSlice low (i - w) i
        let trough2 := minSlice low i (i + w)
        let trough2_idx := argminSlice low i (i + w)
        let peak := maxSlice high trough1_idx trough2_idx
        if |trough1 - trough2| < (2 / 100) * trough1 ∧ trough1 < peak ∧
            w / 2 ≤ trough2_idx - trough1_idx then
          Function.update pat trough2_idx 1
        else pat)
    (fun _ => 0)

/-- The three triangle families scanned by `detect_triangle_patterns`. -/
inductive TriKind : Type
  | ascending : TriKind
  | descending : TriKind
  | symmetrical : TriKind

/-- Embedding of `PatternDetector.detect_triangle_patterns` (marks at index `i + window`;
the symmetrical case takes the sign from the close relative to the channel
midline).  The `[:5]`/`[-5:]` sub-slices are clamped to the window as numpy
clamps slices. -/
def detect_triangle_patterns (high low close : ℕ → ℚ) (kind : TriKind) (w n : ℕ) :
    ℕ → ℚ :=
  (loopIdx w n).foldl
    (fun pat i =>
      match kind with
      | TriKind.ascending =>
        let top := maxSlice high (i - w) (i + w)
        let bottom_slope := lsSlope low (i - w) (2 * w)
        if |maxSlice high (max (i + w - 5) (i - w)) (i + w) -
            maxSlice high (i - w) (min (i - w + 5) (i + w))| < (1 / 100) * top ∧
            0 < bottom_slope then
          Function.update pat (i + w) 1
        else pat
      | TriKind.descending =>
        let bottom := minSlice low (i - w) (i + w)
        let top_slope := lsSlope high (i - w) (2 * w)
        if |minSlice low (max (i + w - 5) (i - w)) (i + w) -
            minSlice low (i - w) (min (i - w + 5) (i + w))| < (1 / 100) * bottom ∧
            top_slope < 0 then
          Function.update pat (i + w) (-1)
        else pat
      | TriKind.symmetrical =>
        let high_slope := lsSlope high (i - w) (2 * w)
        let low_slope := lsSlope low (i - w) (2 * w)
        if high_slope < 0 ∧ 0 < low_slope ∧
            |high (i + w - 1) - low (i + w - 1)| <
              (7 / 10) * |high (i - w) - low (i - w)| then
          Function.update pat (i + w)
            (if (high (i + w - 1) + low (i + w - 1)) / 2 < close (i + w) then 1 else -1)
        else pat)
    (fun _ => 0)

/-! #### Support and resistance (`identify_support_resistance`) -/

/-- Centered rolling maximum of width `w` over `n` rows
(`df['high'].rolling(window, center=True).max()`): the window for row `t`
covers rows `[t + off + 1 - w, t + off]` with `off = (w - 1) / 2`, and the
default `min_periods` equal to the window makes partial windows NaN. -/
def pivot_high_col (high : ℕ → ℚ) (w n t : ℕ) : Option ℚ :=
  let off := (w - 1) / 2
  if w ≤ t + off + 1 ∧ t + off < n then
    some (maxSlice high (t + off + 1 - w) (t + off + 1))
  else none

/-- Centered rolling minimum of width `w` (`pivot_low`). -/
def pivot_low_col (low : ℕ → ℚ) (w n t : ℕ) : Option ℚ :=
  let off := (w - 1) / 2
  if w ≤ t + off + 1 ∧ t + off < n then
    some (minSlice low (t + off + 1 - w) (t + off + 1))
  else none

/-- Embedding of `Series.drop_duplicates()` (keep the first occurrence of each value). -/
def dedupFirst (l : List ℚ) : List ℚ :=
  l.foldl (fun acc x => if x ∈ acc then acc else acc ++ [x]) []

/-- Distinct highs at rows whose high equals the centered rolling maximum
(`df[df['high'] == df['pivot_high']]['high'].drop_duplicates()`). -/
def resistance_candidates (high : ℕ → ℚ) (w n : ℕ) : List ℚ :=
  dedupFirst ((List.range n).filterMap fun t =>
    if pivot_high_col high w n t = some (high t) then some (high t) else none)

/-- Distinct lows at rows whose low equals the centered rolling minimum. -/
def support_candidates (low : ℕ → ℚ) (w n : ℕ) : List ℚ :=
  dedupFirst ((List.range n).filterMap fun t =>
    if pivot_low_col low w n t = some (low t) then some (low t) else none)

/-- Embedding of `resistance[resistance.diff() > resistance * threshold]`: keep each entry
whose difference from the previous retained candidate exceeds `threshold`
times the entry (the first entry's diff is NaN, hence dropped). -/
def filterDiffGt (thr : ℚ) : List ℚ → List ℚ
  | [] => []
  | [_] => []
  | a :: b :: rest => (if b * thr < b - a then [b] else []) ++ filterDiffGt thr (b :: rest)

/-- Embedding of `support[support.diff() < -support * threshold]`. -/
def filterDiffLt (thr : ℚ) : List ℚ → List ℚ
  | [] => []
  | [_] => []
  | a :: b :: rest => (if b - a < -(b * thr) then [b] else []) ++ filterDiffLt thr (b :: rest)

/-- Resistance column: each bar whose high equals a retained level carries
that level, all other bars are NaN. -/
def resistance_col (high : ℕ → ℚ) (w : ℕ) (thr : ℚ) (n t : ℕ) : Option ℚ :=
  if high t ∈ filterDiffGt thr (resistance_candidates high w n) then some (high t)
  else none

/-- Support column: each bar whose low equals a retained level carries that
level. -/
def support_col (low : ℕ → ℚ) (w : ℕ) (thr : ℚ) (n t : ℕ) : Option ℚ :=
  if low t ∈ filterDiffLt thr (support_candidates low w n) then some (low t)
  else none

/-! ### Stage effects on the shared DataFrame (`core.py` pipeline)

Python passes one mutable `DataFrame` through the stages.  Each stage is
modelled as a function returning the pair
`(state of the input object after the call, returned table)`:
* the `IndicatorCalculator` helpers assign columns directly on their argument
  (no `.copy()` in `add_moving_averages`/`add_rsi`/`add_bollinger_bands`/
  `add_macd`), so the post-call input and the returned table are the same
  mutated object;
* `PatternDetector.detect_all_patterns` and `identify_support_resistance`
  start with `df = df.copy()`, so the input is returned untouched;
* `SignalGenerator.generate_signals` only reads `self.data` and builds a new
  table; `Backtester.run_backtest` copies both of its inputs first. -/

/-- The enriched table: OHLCV columns plus the optionally-present derived
columns (`none` models an absent column). -/
structure PyFrame : Type where
  nrows : ℕ
  openC : ℕ → ℚ
  highC : ℕ → ℚ
  lowC : ℕ → ℚ
  closeC : ℕ → ℚ
  volumeC : ℕ → ℚ
  sma_20 : Option (ℕ → ℚ)
  sma_50 : Option (ℕ → ℚ)
  ema_12 : Option (ℕ → ℚ)
  ema_26 : Option (ℕ → ℚ)
  rsi_14 : Option (ℕ → ℚ)
  bb_middle : Option (ℕ → ℚ)
  bb_upper : Option (ℕ → Option ℝ)
  bb_lower : Option (ℕ → Option ℝ)
  macdC : Option (ℕ → ℚ)
  macd_signalC : Option (ℕ → ℚ)
  macd_hist : Option (ℕ → ℚ)
  hs_pattern : Option (ℕ → ℚ)
  double_top : Option (ℕ → ℚ)
  double_bottom : Option (ℕ → ℚ)
  triangle_asc : Option (ℕ → ℚ)
  triangle_desc : Option (ℕ → ℚ)
  triangle_sym : Option (ℕ → ℚ)
  support : Option (ℕ → Option ℚ)
  resistance : Option (ℕ → Option ℚ)

/-- Embedding of `IndicatorCalculator.add_moving_averages`: assigns four columns on its
argument and returns it — `(post-call input, returned table)` coincide. -/
def add_moving_averages (f : PyFrame) : PyFrame × PyFrame :=
  let g := { f with
    sma_20 := some (sma_col 20 f.closeC)
    sma_50 := some (sma_col 50 f.closeC)
    ema_12 := some (ema_col 12 f.closeC)
    ema_26 := some (ema_col 26 f.closeC) }
  (g, g)

/-- Embedding of `IndicatorCalculator.add_rsi` (default `window=14`), in place. -/
def add_rsi (f : PyFrame) : PyFrame × PyFrame :=
  let g := { f with rsi_14 := some (rsi_col 14 f.closeC) }
  (g, g)

/-- Embedding of `IndicatorCalculator.add_bollinger_bands` (window 20, 2 standard
deviations), in place. -/
noncomputable def add_bollinger_bands (f : PyFrame) : PyFrame × PyFrame :=
  let g := { f with
    bb_middle := some (bb_middle_col f.closeC)
    bb_upper := some (bb_upper_col f.closeC)
    bb_lower := some (bb_lower_col f.closeC) }
  (g, g)

/-- Embedding of `IndicatorCalculator.add_macd`, in place: recomputes the moving averages
first when the EMA columns are absent, then assigns the three MACD columns
from the stored EMA columns. -/
def add_macd (f : PyFrame) : PyFrame × PyFrame :=
  let f1 := if f.ema_12.isNone ∨ f.ema_26.isNone then (add_moving_averages f).2 else f
  let e12 := f1.ema_12.getD (fun _ => 0)
  let e26 := f1.ema_26.getD (fun _ => 0)
  let m : ℕ → ℚ := fun t => e12 t - e26 t
  let ms : ℕ → ℚ := ewmRec (2 / 10) m
  let g := { f1 with
    macdC := some m
    macd_signalC := some ms
    macd_hist := some (fun t => m t - ms t) }
  (g, g)

/-- Embedding of `IndicatorCalculator.calculate_all_indicators`: chains the four in-place
helpers; the caller's table ends up fully enriched because every helper
mutates the object it is handed. -/
noncomputable def calculate_all_indicators (f : PyFrame) : PyFrame × PyFrame :=
  let g := (add_macd (add_bollinger_bands (add_rsi (add_moving_averages f).2).2).2).2
  (g, g)

/-- Embedding of `PatternDetector.detect_all_patterns`: copies its input, then assigns the
six marker columns and the support/resistance columns on the copy.  The
first component is the untouched input. -/
def detect_all_patterns (f : PyFrame) : PyFrame × PyFrame :=
  let n := f.nrows
  let g := { f with
    hs_pattern := some (detect_head_shoulders f.highC f.lowC 30 n)
    double_top := some (detect_double_top_bottom f.highC f.lowC DTKind.top 30 n)
    double_bottom := some (detect_double_top_bottom f.highC f.lowC DTKind.bottom 30 n)
    triangle_asc := some (detect_triangle_patterns f.highC f.lowC f.closeC TriKind.ascending 30 n)
    triangle_desc := some (detect_triangle_patterns f.highC f.lowC f.closeC TriKind.descending 30 n)
    triangle_sym := some (detect_triangle_patterns f.highC f.lowC f.closeC TriKind.symmetrical 30 n)
    support := some (support_col f.lowC 20 (2 / 100) n)
    resistance := some (resistance_col f.highC 20 (2 / 100) n) }
  (f, g)

/-- View of row `t` of an enriched frame as the record the signal generator
reads.  ℚ-valued columns are cast into ℝ to sit beside the real-valued
Bollinger bands; a `getD` default stands in for the `KeyError` Python would
raise on a genuinely absent indicator column (the pipeline always populates
them), while an absent pattern column legitimately contributes nothing, as
in the source's `if pattern in self.data.columns` guards. -/
noncomputable def frameRow (f : PyFrame) (t : ℕ) : EnrichedRow ℝ :=
  { close := (f.closeC t : ℚ)
    sma_20 := ((f.sma_20.getD (fun _ => 0)) t : ℚ)
    sma_50 := ((f.sma_50.getD (fun _ => 0)) t : ℚ)
    ema_12 := ((f.ema_12.getD (fun _ => 0)) t : ℚ)
    ema_26 := ((f.ema_26.getD (fun _ => 0)) t : ℚ)
    rsi_14 := ((f.rsi_14.getD (fun _ => 0)) t : ℚ)
    macd := ((f.macdC.getD (fun _ => 0)) t : ℚ)
    macd_signal := ((f.macd_signalC.getD (fun _ => 0)) t : ℚ)
    bb_upper := (f.bb_upper.getD (fun _ => none)) t
    bb_lower := (f.bb_lower.getD (fun _ => none)) t
    hs_pattern := ((f.hs_pattern.getD (fun _ => 0)) t : ℚ)
    double_top := ((f.double_top.getD (fun _ => 0)) t : ℚ)
    double_bottom := ((f.double_bottom.getD (fun _ => 0)) t : ℚ)
    triangle_asc := ((f.triangle_asc.getD (fun _ => 0)) t : ℚ)
    triangle_desc := ((f.triangle_desc.getD (fun _ => 0)) t : ℚ)
    triangle_sym := ((f.triangle_sym.getD (fun _ => 0)) t : ℚ)
    support := ((f.support.getD (fun _ => none)) t).map (fun q => (q : ℝ))
    resistance := ((f.resistance.getD (fun _ => none)) t).map (fun q => (q : ℝ)) }

/-- Embedding of `SignalGenerator.generate_signals` as a stage: reads the enriched frame
row by row and builds a fresh signal table; the input is not written to. -/
noncomputable def generate_signals_stage (f : PyFrame) :
    PyFrame × (ℕ → SignalRow ℝ) :=
  (f, generate_signals (frameRow f))

/-- The per-run series and metrics assembled by `run_backtest` that the
claims examine (the auxiliary trade-count diagnostics are not modelled). -/
structure BacktestOut : Type where
  position : ℕ → Option ℚ
  holdings : ℕ → Option ℚ
  cash : ℕ → Option ℚ
  total : ℕ → Option ℚ
  returns : ℕ → ℚ
  max_dd : Option ℚ
  sharpe_ratioR : ℝ

/-- Embedding of `Backtester.run_backtest` as a stage: both inputs are copied before any
column is touched, so the post-call inputs equal the originals. -/
noncomputable def run_backtest_stage (data : PyFrame) (sigs : ℕ → SignalRow ℝ)
    (capital commission : ℚ) : (PyFrame × (ℕ → SignalRow ℝ)) × BacktestOut :=
  let sig : ℕ → ℤ := fun t => (sigs t).signal
  ((data, sigs),
    { position := position_col sig
      holdings := holdings_col data.closeC sig
      cash := cash_col data.closeC sig capital commission
      total := total_col data.closeC sig capital commission
      returns := returns_col data.closeC sig capital commission
      max_dd := max_drawdown data.closeC sig capital commission data.nrows
      sharpe_ratioR := sharpe data.closeC sig capital commission data.nrows })

/-! ### Evaluation lemmas for the column combinators -/

/-- The position column starts with the NaN planted by `shift(1)`. -/
theorem position_col_zero (sig : ℕ → ℤ) : position_col sig 0 = none := rfl

/-- The `cumsum` at a defined row is the accumulated sum of the defined entries. -/
theorem ocumsum_some {s : ℕ → Option ℚ} {t : ℕ} {v : ℚ} (h : s t = some v) :
    ocumsum s t = some (∑ k ∈ Finset.range (t + 1), (s k).getD 0) := by
  rw [ocumsum, h]

/-- The `cumsum` keeps NaN rows NaN. -/
theorem ocumsum_none {s : ℕ → Option ℚ} {t : ℕ} (h : s t = none) : ocumsum s t = none := by
  rw [ocumsum, h]

/-- The `cummax` at a defined row is the NaN-skipping maximum so far. -/
theorem ocummax_some {s : ℕ → Option ℚ} {t : ℕ} {v : ℚ} (h : s t = some v) :
    ocummax s t = seriesMax s (t + 1) := by
  rw [ocummax, h]

/-- The `cummax` keeps NaN rows NaN. -/
theorem ocummax_none {s : ℕ → Option ℚ} {t : ℕ} (h : s t = none) : ocummax s t = none := by
  rw [ocummax, h]

/-- Unfolding lemma for `seriesMax` at zero. -/
theorem seriesMax_zero (s : ℕ → Option ℚ) : seriesMax s 0 = none := rfl

/-- Unfolding lemma for `seriesMax` at a successor. -/
theorem seriesMax_succ (s : ℕ → Option ℚ) (n : ℕ) :
    seriesMax s (n + 1) = omax (seriesMax s n) (s n) := rfl

/-! ### Helper lemmas about NaN-skipping maxima -/

/-- A NaN `omax` forces both arguments NaN. -/
theorem omax_eq_none {a b : Option ℚ} (h : omax a b = none) : a = none ∧ b = none := by
  cases a <;> cases b <;> simp_all [omax]

/-- If the NaN-skipping maximum of a prefix is NaN, every entry of the prefix
is NaN. -/
theorem seriesMax_none {s : ℕ → Option ℚ} :
    ∀ {n : ℕ}, seriesMax s n = none → ∀ t, t < n → s t = none := by
  intro n
  induction n with
  | zero => exact fun _ t ht => absurd ht (Nat.not_lt_zero t)
  | succ n ih =>
    intro h t ht
    rw [seriesMax] at h
    obtain ⟨h1, h2⟩ := omax_eq_none h
    rcases Nat.lt_succ_iff_lt_or_eq.mp ht with h3 | h3
    · exact ih h1 t h3
    · rw [h3]; exact h2

/-- Every defined entry of a prefix is bounded by the prefix's NaN-skipping
maximum. -/
theorem seriesMax_le {s : ℕ → Option ℚ} :
    ∀ {n : ℕ} {q : ℚ}, seriesMax s n = some q →
      ∀ t, t < n → ∀ x, s t = some x → x ≤ q := by
  intro n
  induction n with
  | zero => exact fun _ t ht _ _ => absurd ht (Nat.not_lt_zero t)
  | succ n ih =>
    intro q h t ht x hx
    rw [seriesMax] at h
    rcases Nat.lt_succ_iff_lt_or_eq.mp ht with h3 | h3
    · rcases ha : seriesMax s n with _ | m
      · exact absurd (seriesMax_none ha t h3) (by rw [hx]; exact fun hc => Option.noConfusion hc)
      · rw [ha] at h
        have hm : m ≤ q := by
          rcases hb : s n with _ | y <;> rw [hb] at h <;> simp [omax] at h
          · exact le_of_eq h
          · rw [← h]; exact le_max_left m y
        exact le_trans (ih ha t h3 x hx) hm
    · rw [h3] at hx
      rw [hx] at h
      rcases ha : seriesMax s n with _ | m <;> rw [ha] at h <;> simp [omax] at h
      · exact le_of_eq h
      · rw [← h]; exact le_max_right m x

/-- A defined NaN-skipping maximum is attained at some entry of the prefix. -/
theorem seriesMax_attained {s : ℕ → Option ℚ} :
    ∀ {n : ℕ} {q : ℚ}, seriesMax s n = some q → ∃ t, t < n ∧ s t = some q := by
  intro n
  induction n with
  | zero => intro q h; rw [seriesMax] at h; exact Option.noConfusion h
  | succ n ih =>
    intro q h
    rw [seriesMax] at h
    rcases ha : seriesMax s n with _ | m <;> rcases hb : s n with _ | y <;>
        rw [ha, hb] at h <;> simp [omax] at h
    · exact ⟨n, Nat.lt_succ_self n, by rw [hb, h]⟩
    · obtain ⟨t, ht, hs⟩ := ih ha
      exact ⟨t, Nat.lt_succ_of_lt ht, by rw [hs, h]⟩
    · rcases le_total m y with hc | hc
      · exact ⟨n, Nat.lt_succ_self n, by rw [hb, ← h, max_eq_right hc]⟩
      · obtain ⟨t, ht, hs⟩ := ih ha
        exact ⟨t, Nat.lt_succ_of_lt ht, by rw [hs, ← h, max_eq_left hc]⟩

/-- A defined entry forces the NaN-skipping maximum of any longer prefix to
be defined and at least as large. -/
theorem seriesMax_defined {s : ℕ → Option ℚ} {k n : ℕ} {x : ℚ}
    (hk : k < n) (hx : s k = some x) : ∃ m, seriesMax s n = some m ∧ x ≤ m := by
  rcases h : seriesMax s n with _ | m
  · exact absurd (seriesMax_none h k hk) (by rw [hx]; exact fun hc => Option.noConfusion hc)
  · exact ⟨m, rfl, seriesMax_le h k hk x hx⟩

/-- Core of claim C7: whenever `drawdown.max()` is a defined value, it is
nonnegative — the drawdown is exactly 0 at the row where the running maximum
is attained, and that row participates in the maximum. -/
theorem drawdown_max_nonneg {tot : ℕ → Option ℚ} {n : ℕ} {q : ℚ}
    (h : seriesMax (drawdown_of tot) n = some q) : 0 ≤ q := by
  obtain ⟨t, htn, hdd⟩ := seriesMax_attained h
  rw [drawdown_of] at hdd
  rcases hcm : ocummax tot t with _ | M
  · rw [hcm] at hdd; exact absurd hdd (by simp [osub, odiv])
  · rcases htot : tot t with _ | x
    · rw [hcm, htot] at hdd; simp [osub, odiv] at hdd
    · rw [hcm, htot] at hdd
      simp only [osub, odiv] at hdd
      have hM0 : ¬ M = 0 := by
        intro hc; rw [if_pos hc] at hdd; exact Option.noConfusion hdd
      rw [if_neg hM0] at hdd
      -- unpack the running maximum at t
      have hsm : seriesMax tot (t + 1) = some M := by
        rw [ocummax, htot] at hcm; exact hcm
      obtain ⟨k, hkt, hk⟩ := seriesMax_attained hsm
      -- the running maximum at k equals M as well
      obtain ⟨M2, hM2, hMle⟩ := seriesMax_defined (Nat.lt_succ_self k) hk
      have hM2le : M2 ≤ M := by
        obtain ⟨j, hj, hjv⟩ := seriesMax_attained hM2
        exact seriesMax_le hsm j (lt_of_lt_of_le hj hkt) M2 hjv
      have hMM : M2 = M := le_antisymm hM2le hMle
      -- the drawdown at k is 0
      have hddk : drawdown_of tot k = some 0 := by
        rw [drawdown_of, ocummax, hk, hM2, hMM]
        simp [osub, odiv, hM0]
      have hkn : k < n := lt_of_lt_of_le (Nat.lt_of_lt_of_le hkt (Nat.succ_le_of_lt htn)) (le_refl n)
      exact seriesMax_le h k hkn 0 hddk

/-! ### Claim C1 — composite score and decision thresholds -/

/-- C1: for every enriched series and every timestamp, the composite score
emitted by `generate_signals` equals the weighted sum of the six emitted
sub-signals with weights ma=2.0, macd=1.5, rsi=1.0, bollinger=1.0,
pattern=2.0, sr=1.5, and the final signal is +1 when the composite score is
at least 3, -1 when it is at most -3, and 0 otherwise. -/
theorem C1_composite_weighted_sum_and_threshold {K : Type} [LinearOrderedField K]
    (rows : ℕ → EnrichedRow K) (t : ℕ) :
    (generate_signals rows t).composite_score =
        2 * ((generate_signals rows t).ma_signal : K) +
          (3 / 2 : K) * ((generate_signals rows t).macd_signal : K) +
          1 * ((generate_signals rows t).rsi_signal : K) +
          1 * ((generate_signals rows t).bb_signal : K) +
          2 * ((generate_signals rows t).pattern_signal : K) +
          (3 / 2 : K) * ((generate_signals rows t).sr_signal : K) ∧
      (generate_signals rows t).signal =
        (if (3 : K) ≤ (generate_signals rows t).composite_score then 1
          else if (generate_signals rows t).composite_score ≤ -3 then -1
          else 0) := by
  constructor
  · rfl
  · show final_signal (rows t) =
      (if (3 : K) ≤ composite_score (rows t) then 1
        else if composite_score (rows t) ≤ -3 then -1
        else 0)
    rw [final_signal]
    by_cases h1 : composite_score (rows t) ≤ -3
    · rw [if_pos h1, if_neg (by linarith), if_pos h1]
    · rw [if_neg h1]
      by_cases h2 : (3 : K) ≤ composite_score (rows t)
      · rw [if_pos h2, if_pos h2]
      · rw [if_neg h2, if_neg h2, if_neg h1]

/-! ### Claim C4 — sub-signal ranges -/

/-- C4 (amended): the ma, macd, rsi, bollinger and support/resistance
sub-signals always lie in the set of -1, 0 and 1; the pattern sub-signal is
a sum of six marker contributions and is only bounded between -3 and 3. -/
theorem C4_sub_signal_ranges {K : Type} [LinearOrderedField K]
    (rows : ℕ → EnrichedRow K) (t : ℕ) :
    ((generate_signals rows t).ma_signal = -1 ∨ (generate_signals rows t).ma_signal = 0 ∨
        (generate_signals rows t).ma_signal = 1) ∧
      ((generate_signals rows t).macd_signal = -1 ∨ (generate_signals rows t).macd_signal = 0 ∨
        (generate_signals rows t).macd_signal = 1) ∧
      ((generate_signals rows t).rsi_signal = -1 ∨ (generate_signals rows t).rsi_signal = 0 ∨
        (generate_signals rows t).rsi_signal = 1) ∧
      ((generate_signals rows t).bb_signal = -1 ∨ (generate_signals rows t).bb_signal = 0 ∨
        (generate_signals rows t).bb_signal = 1) ∧
      ((generate_signals rows t).sr_signal = -1 ∨ (generate_signals rows t).sr_signal = 0 ∨
        (generate_signals rows t).sr_signal = 1) ∧
      (-3 ≤ (generate_signals rows t).pattern_signal ∧
        (generate_signals rows t).pattern_signal ≤ 3) := by
  refine ⟨?_, ?_, ?_, ?_, ?_, ?_⟩
  · rw [show (generate_signals rows t).ma_signal = StockSig.ma_signal (rows t) from rfl,
      StockSig.ma_signal]
    split_ifs <;> simp
  · rw [show (generate_signals rows t).macd_signal = macd_sub_signal (rows t) from rfl,
      macd_sub_signal]
    split_ifs <;> simp
  · rw [show (generate_signals rows t).rsi_signal = StockSig.rsi_signal (rows t) from rfl,
      StockSig.rsi_signal]
    split_ifs <;> simp
  · rw [show (generate_signals rows t).bb_signal = StockSig.bb_signal (rows t) from rfl,
      StockSig.bb_signal]
    split_ifs <;> simp
  · rw [show (generate_signals rows t).sr_signal = StockSig.sr_signal (rows t) from rfl,
      StockSig.sr_signal]
    split_ifs <;> simp
  · rw [show (generate_signals rows t).pattern_signal = StockSig.pattern_signal (rows t) from rfl,
      StockSig.pattern_signal]
    constructor <;> split_ifs <;> omega

/-- An enriched row at which a double bottom and an ascending triangle are
both confirmed (as upstream detection can produce on one timestamp). -/
def twoBullRow : EnrichedRow ℚ :=
  { close := 10
    sma_20 := 1
    sma_50 := 1
    ema_12 := 1
    ema_26 := 1
    rsi_14 := 50
    macd := 0
    macd_signal := 0
    bb_upper := none
    bb_lower := none
    hs_pattern := 0
    double_top := 0
    double_bottom := 1
    triangle_asc := 1
    triangle_desc := 0
    triangle_sym := 0
    support := none
    resistance := none }

/-- C4 counterexample: with two bullish markers active at one timestamp, the
`pattern_signal` column holds 2, which is not in the set of -1, 0 and 1. -/
theorem C4_pattern_signal_out_of_range :
    (generate_signals (fun _ => twoBullRow) 0).pattern_signal = 2 ∧
      ¬((generate_signals (fun _ => twoBullRow) 0).pattern_signal = -1 ∨
        (generate_signals (fun _ => twoBullRow) 0).pattern_signal = 0 ∨
        (generate_signals (fun _ => twoBullRow) 0).pattern_signal = 1) := by
  decide

/-! ### Claim C2 — no look-ahead in the position series -/

/-- Value form of the position column away from its leading NaN: the
cumulative sum of the shifted decisions. -/
theorem position_col_succ (sig : ℕ → ℤ) (m : ℕ) :
    position_col sig (m + 1) = some (∑ k ∈ Finset.range (m + 1), (sig k : ℚ)) := by
  rw [position_col, ocumsum]
  show some _ = _
  congr 1
  rw [Finset.sum_range_succ']
  simp [shifted_signal]

/-- C2: two runs over enriched series that differ only at row `t` produce
identical positions at every step up to and including `t` — the shifted
decision rule makes `Position[s]` a function of the decisions at rows
strictly before `s`. -/
theorem C2_no_look_ahead {K : Type} [LinearOrderedField K]
    (rows rows2 : ℕ → EnrichedRow K) (t : ℕ)
    (h : ∀ k, k ≠ t → rows k = rows2 k) :
    ∀ s, s ≤ t →
      position_col (fun k => (generate_signals rows k).signal) s =
        position_col (fun k => (generate_signals rows2 k).signal) s := by
  intro s hs
  cases s with
  | zero => rfl
  | succ m =>
    rw [position_col_succ, position_col_succ]
    congr 1
    refine Finset.sum_congr rfl fun k hk => ?_
    have hkt : k ≠ t := by
      have := Finset.mem_range.mp hk
      omega
    show ((final_signal (rows k) : ℤ) : ℚ) = ((final_signal (rows2 k) : ℤ) : ℚ)
    rw [h k hkt]

/-- A neutral enriched row used by the C2 witness. -/
def quietRow : EnrichedRow ℚ :=
  { close := 10
    sma_20 := 1
    sma_50 := 1
    ema_12 := 1
    ema_26 := 1
    rsi_14 := 50
    macd := 0
    macd_signal := 0
    bb_upper := none
    bb_lower := none
    hs_pattern := 0
    double_top := 0
    double_bottom := 0
    triangle_asc := 0
    triangle_desc := 0
    triangle_sym := 0
    support := none
    resistance := none }

/-- The C2 witness's second run: the close (and the indicators that follow
from it) at row 1 is different. -/
def bumpRow : EnrichedRow ℚ :=
  { quietRow with close := 99, rsi_14 := 10, bb_lower := some 120, support := some 100 }

/-- C2 witness: a concrete pair of runs differing only at row 1 has equal
positions at rows 0 and 1. -/
theorem C2_no_look_ahead_witness :
    position_col (fun k => (generate_signals (fun _ => quietRow) k).signal) 1 =
      position_col
        (fun k => (generate_signals (fun j => if j = 1 then bumpRow else quietRow) k).signal) 1 :=
  C2_no_look_ahead (fun _ => quietRow) (fun j => if j = 1 then bumpRow else quietRow) 1
    (fun k hk => by simp [hk]) 1 (le_refl 1)

/-! ### Claim C3 — the cash ledger -/

/-- The trade-cost ledger entry is NaN at rows 0 and 1 (both inherit the NaN
that `shift(1)` plants at row 0 of the positions), and from row 2 on it is
the position change times close times `1 + commission`. -/
theorem trade_cost_col_eq (close : ℕ → ℚ) (sig : ℕ → ℤ) (commission : ℚ) :
    trade_cost_col close sig commission 0 = none ∧
      trade_cost_col close sig commission 1 = none ∧
      ∀ m, trade_cost_col close sig commission (m + 2) =
        some (((∑ i ∈ Finset.range (m + 2), (sig i : ℚ)) -
            ∑ i ∈ Finset.range (m + 1), (sig i : ℚ)) * close (m + 2) * (1 + commission)) := by
  refine ⟨rfl, ?_, ?_⟩
  · show omul (omul (osub (position_col sig 1) (position_col sig 0)) _) _ = none
    rw [position_col_succ]
    rfl
  · intro m
    show omul (omul (osub (position_col sig (m + 2)) (position_col sig (m + 1))) _) _ = _
    rw [show m + 2 = (m + 1) + 1 from rfl, position_col_succ, position_col_succ]
    rfl

/-- C3 (amended): the cash column is NaN at steps 0 and 1 (the ledger entry
of the position opened at step 1 is itself NaN, so that trade is never
charged), and from step 2 on cash equals the initial capital minus the
accumulated `ΔPosition × Close × (1 + commission)` over steps 2..t, where
`Position[k]` is the sum of the decisions at steps before `k`. -/
theorem C3_cash_ledger (close : ℕ → ℚ) (sig : ℕ → ℤ) (capital commission : ℚ) :
    cash_col close sig capital commission 0 = none ∧
      cash_col close sig capital commission 1 = none ∧
      ∀ t, 2 ≤ t →
        cash_col close sig capital commission t =
          some (capital - ∑ k ∈ Finset.Icc 2 t,
            ((∑ i ∈ Finset.range k, (sig i : ℚ)) -
                ∑ i ∈ Finset.range (k - 1), (sig i : ℚ)) * close k * (1 + commission)) := by
  obtain ⟨hc0, hc1, hc2⟩ := trade_cost_col_eq close sig commission
  refine ⟨?_, ?_, ?_⟩
  · rw [cash_col, ocumsum, hc0]; rfl
  · rw [cash_col, ocumsum, hc1]; rfl
  · intro t ht
    obtain ⟨m, rfl⟩ : ∃ m, t = m + 2 := ⟨t - 2, by omega⟩
    rw [cash_col, ocumsum, hc2 m]
    show osub (some capital) (some _) = _
    rw [osub]
    congr 1
    congr 1
    have hsub : Finset.Icc 2 (m + 2) ⊆ Finset.range (m + 2 + 1) := by
      intro x hx
      rw [Finset.mem_Icc] at hx
      rw [Finset.mem_range]
      omega
    rw [← Finset.sum_subset hsub]
    · refine Finset.sum_congr rfl fun k hk => ?_
      rw [Finset.mem_Icc] at hk
      obtain ⟨j, rfl⟩ : ∃ j, k = j + 2 := ⟨k - 2, by omega⟩
      rw [hc2 j]
      rfl
    · intro x hx hnot
      rw [Finset.mem_range] at hx
      rw [Finset.mem_Icc] at hnot
      have : x = 0 ∨ x = 1 := by omega
      rcases this with rfl | rfl
      · rw [hc0]; rfl
      · rw [hc1]; rfl

/-- C3 counterexample: on a concrete run the cash column is NaN at step 0
(and step 1) instead of holding the initial capital, so cash is not a
well-defined number at every step. -/
theorem C3_cash_undefined_at_start :
    cash_col (fun _ => 100) (fun _ => 1) 10000 (1 / 1000) 0 = none ∧
      cash_col (fun _ => 100) (fun _ => 1) 10000 (1 / 1000) 1 = none ∧
      cash_col (fun _ => 100) (fun _ => 1) 10000 (1 / 1000) 0 ≠ some 10000 := by
  decide

/-- C3 witness: the amended ledger formula evaluated at step 2 of a concrete
run. -/
theorem C3_cash_ledger_witness :
    cash_col (fun _ => (100 : ℚ)) (fun _ => (1 : ℤ)) 10000 0 2 =
      some (10000 - ∑ k ∈ Finset.Icc 2 2,
        ((∑ i ∈ Finset.range k, ((1 : ℤ) : ℚ)) -
            ∑ i ∈ Finset.range (k - 1), ((1 : ℤ) : ℚ)) * 100 * (1 + 0)) :=
  (C3_cash_ledger (fun _ => 100) (fun _ => 1) 10000 0).2.2 2 (by decide)

/-! ### Claim C7 — maximum drawdown range -/

/-- C7 (amended): whenever the reported maximum drawdown of a run is a
defined value, it is nonnegative; it is not bounded above by 1. -/
theorem C7_max_drawdown_nonneg (close : ℕ → ℚ) (sig : ℕ → ℤ)
    (capital commission : ℚ) (n : ℕ) (q : ℚ)
    (h : max_drawdown close sig capital commission n = some q) : 0 ≤ q :=
  drawdown_max_nonneg h

/-- Closes of the C7 counterexample run: a short position is opened while the
price is 100, then the price jumps to 20000. -/
def spikeClose : ℕ → ℚ := fun t => if t ≤ 2 then 100 else 20000

/-- Decisions of the C7 counterexample run: a single sell decision at step 0
(held short thereafter). -/
def sellOnce : ℕ → ℤ := fun t => if t = 0 then -1 else 0

/-- C7 counterexample: this four-bar run reports a maximum drawdown of
199/99, which is greater than 1 — the drawdown is not confined to [0, 1]. -/
theorem C7_max_drawdown_above_one :
    max_drawdown spikeClose sellOnce 10000 0 4 = some (199 / 99) ∧
      ¬(199 / 99 ≤ (1 : ℚ)) := by
  constructor
  · have hsum : ∀ m : ℕ, (∑ i ∈ Finset.range (m + 1), (sellOnce i : ℚ)) = -1 := by
      intro m
      induction m with
      | zero => norm_num [sellOnce]
      | succ m ih => rw [Finset.sum_range_succ, ih]; simp [sellOnce]
    obtain ⟨hc0, hc1, hc2⟩ := trade_cost_col_eq spikeClose sellOnce 0
    have hcost : ∀ m : ℕ, trade_cost_col spikeClose sellOnce 0 (m + 2) = some 0 := by
      intro m
      rw [hc2 m, hsum (m + 1), hsum m]
      norm_num
    have hcash : ∀ m : ℕ,
        cash_col spikeClose sellOnce 10000 0 (m + 2) = some (10000 - ∑ k ∈
          Finset.range (m + 2 + 1), (trade_cost_col spikeClose sellOnce 0 k).getD 0) := by
      intro m
      rw [cash_col, ocumsum_some (hcost m)]
      rfl
    have hcash2 : cash_col spikeClose sellOnce 10000 0 2 = some 10000 := by
      rw [hcash 0, Finset.sum_range_succ, Finset.sum_range_succ, Finset.sum_range_one,
        hc0, hc1, hcost 0]
      norm_num
    have hcash3 : cash_col spikeClose sellOnce 10000 0 3 = some 10000 := by
      rw [hcash 1, Finset.sum_range_succ, Finset.sum_range_succ, Finset.sum_range_succ,
        Finset.sum_range_one, hc0, hc1, hcost 0, hcost 1]
      norm_num
    have hp : ∀ m : ℕ, position_col sellOnce (m + 1) = some (-1) := by
      intro m
      rw [position_col_succ, hsum m]
    have ht0 : total_col spikeClose sellOnce 10000 0 0 = none := by
      rw [total_col, cash_col, ocumsum_none hc0]
      rfl
    have ht1 : total_col spikeClose sellOnce 10000 0 1 = none := by
      rw [total_col, cash_col, ocumsum_none hc1]
      rfl
    have ht2 : total_col spikeClose sellOnce 10000 0 2 = some 9900 := by
      rw [total_col, hcash2, holdings_col, hp 1]
      show some (10000 + -1 * spikeClose 2) = some 9900
      norm_num [spikeClose]
    have ht3 : total_col spikeClose sellOnce 10000 0 3 = some (-10000) := by
      rw [total_col, hcash3, holdings_col, hp 2]
      show some (10000 + -1 * spikeClose 3) = some (-10000)
      norm_num [spikeClose]
    have hs3 : seriesMax (total_col spikeClose sellOnce 10000 0) 3 = some 9900 := by
      rw [seriesMax_succ, seriesMax_succ, seriesMax_succ, seriesMax_zero, ht0, ht1, ht2]
      rfl
    have hs4 : seriesMax (total_col spikeClose sellOnce 10000 0) 4 = some 9900 := by
      rw [seriesMax_succ, hs3, ht3]
      show some (max 9900 (-10000)) = some 9900
      norm_num
    have hdd0 : drawdown_col spikeClose sellOnce 10000 0 0 = none := by
      rw [drawdown_col, drawdown_of, ocummax_none ht0]
      rfl
    have hdd1 : drawdown_col spikeClose sellOnce 10000 0 1 = none := by
      rw [drawdown_col, drawdown_of, ocummax_none ht1]
      rfl
    have hdd2 : drawdown_col spikeClose sellOnce 10000 0 2 = some 0 := by
      rw [drawdown_col, drawdown_of, ocummax_some ht2, hs3, ht2]
      show odiv (osub (some 9900) (some 9900)) (some 9900) = some 0
      norm_num [osub, odiv]
    have hdd3 : drawdown_col spikeClose sellOnce 10000 0 3 = some (199 / 99) := by
      rw [drawdown_col, drawdown_of, ocummax_some ht3, hs4, ht3]
      show odiv (osub (some 9900) (some (-10000))) (some 9900) = some (199 / 99)
      norm_num [osub, odiv]
    rw [max_drawdown, seriesMax_succ, seriesMax_succ, seriesMax_succ, seriesMax_succ,
      seriesMax_zero, hdd0, hdd1, hdd2, hdd3]
    show some (max 0 (199 / 99)) = some (199 / 99)
    norm_num
  · norm_num

/-- A flat do-nothing run used to witness C7: its maximum drawdown evaluates
to a defined 0. -/
theorem flat_run_max_drawdown :
    max_drawdown (fun _ => 100) (fun _ => 0) 10000 (1 / 1000) 3 = some 0 := by
  obtain ⟨hc0, hc1, hc2⟩ := trade_cost_col_eq (fun _ => 100) (fun _ => 0) (1 / 1000)
  have hcost : trade_cost_col (fun _ => 100) (fun _ => 0) (1 / 1000) 2 = some 0 := by
    rw [hc2 0]
    norm_num
  have hcash2 : cash_col (fun _ => 100) (fun _ => 0) 10000 (1 / 1000) 2 = some 10000 := by
    rw [cash_col, ocumsum_some hcost, Finset.sum_range_succ, Finset.sum_range_succ,
      Finset.sum_range_one, hc0, hc1, hcost]
    norm_num [osub]
  have hp1 : position_col (fun _ => 0) 2 = some 0 := by
    rw [show (2 : ℕ) = 1 + 1 from rfl, position_col_succ]
    norm_num
  have ht0 : total_col (fun _ => 100) (fun _ => 0) 10000 (1 / 1000) 0 = none := by
    rw [total_col, cash_col, ocumsum_none hc0]
    rfl
  have ht1 : total_col (fun _ => 100) (fun _ => 0) 10000 (1 / 1000) 1 = none := by
    rw [total_col, cash_col, ocumsum_none hc1]
    rfl
  have ht2 : total_col (fun _ => 100) (fun _ => 0) 10000 (1 / 1000) 2 = some 10000 := by
    rw [total_col, hcash2, holdings_col, hp1]
    show some (10000 + 0 * (100 : ℚ)) = some 10000
    norm_num
  have hs3 : seriesMax (total_col (fun _ => 100) (fun _ => 0) 10000 (1 / 1000)) 3 =
      some 10000 := by
    rw [seriesMax_succ, seriesMax_succ, seriesMax_succ, seriesMax_zero, ht0, ht1, ht2]
    rfl
  have hdd0 : drawdown_col (fun _ => 100) (fun _ => 0) 10000 (1 / 1000) 0 = none := by
    rw [drawdown_col, drawdown_of, ocummax_none ht0]
    rfl
  have hdd1 : drawdown_col (fun _ => 100) (fun _ => 0) 10000 (1 / 1000) 1 = none := by
    rw [drawdown_col, drawdown_of, ocummax_none ht1]
    rfl
  have hdd2 : drawdown_col (fun _ => 100) (fun _ => 0) 10000 (1 / 1000) 2 = some 0 := by
    rw [drawdown_col, drawdown_of, ocummax_some ht2, hs3, ht2]
    show odiv (osub (some 10000) (some 10000)) (some 10000) = some 0
    norm_num [osub, odiv]
  rw [max_drawdown, seriesMax_succ, seriesMax_succ, seriesMax_succ, seriesMax_zero,
    hdd0, hdd1, hdd2]
  rfl

/-- C7 witness: a flat do-nothing run has a defined maximum drawdown of 0,
and the amended theorem instantiates to it being nonnegative. -/
theorem C7_max_drawdown_nonneg_witness :
    max_drawdown (fun _ => 100) (fun _ => 0) 10000 (1 / 1000) 3 = some 0 ∧ (0 : ℚ) ≤ 0 :=
  ⟨flat_run_max_drawdown,
    C7_max_drawdown_nonneg (fun _ => 100) (fun _ => 0) 10000 (1 / 1000) 3 0
      flat_run_max_drawdown⟩

/-! ### Claim C8 — Sharpe ratio guard -/

/-- The sample variance of any series is nonnegative. -/
theorem series_var_nonneg (f : ℕ → ℚ) (n : ℕ) (hn : 2 ≤ n) : 0 ≤ series_var f n := by
  rw [series_var]
  apply div_nonneg
  · exact Finset.sum_nonneg fun t _ => sq_nonneg _
  · have : (2 : ℚ) ≤ (n : ℚ) := by exact_mod_cast hn
    linarith

/-- C8: the reported Sharpe ratio equals
`mean(Return) / stddev(Return) * sqrt(252)` whenever the run has at least
two return observations and their standard deviation is nonzero, and it is
exactly 0 otherwise — in particular on a single-bar run — with the whole
computation total (no error raised). -/
theorem C8_sharpe_guard (close : ℕ → ℚ) (sig : ℕ → ℤ) (capital commission : ℚ) (n : ℕ) :
    (2 ≤ n →
        Real.sqrt ((series_var (returns_col close sig capital commission) n : ℚ) : ℝ) ≠ 0 →
        sharpe close sig capital commission n =
          ((series_mean (returns_col close sig capital commission) n : ℚ) : ℝ) /
            Real.sqrt ((series_var (returns_col close sig capital commission) n : ℚ) : ℝ) *
            Real.sqrt 252) ∧
      ((n < 2 ∨
          Real.sqrt ((series_var (returns_col close sig capital commission) n : ℚ) : ℝ) = 0) →
        sharpe close sig capital commission n = 0) ∧
      (n = 1 → sharpe close sig capital commission n = 0) := by
  refine ⟨?_, ?_, ?_⟩
  · intro h1 h2
    rw [sharpe, if_pos ⟨by omega, h2⟩]
  · intro h
    rw [sharpe, if_neg]
    rintro ⟨hn, hs⟩
    rcases h with h | h
    · omega
    · exact hs h
  · intro h
    rw [sharpe, if_neg]
    rintro ⟨hn, _⟩
    omega

/-- C8 witness: a single-bar run reports a Sharpe ratio of exactly 0. -/
theorem C8_sharpe_guard_witness :
    sharpe (fun _ => 100) (fun _ => 0) 10000 (1 / 1000) 1 = 0 :=
  (C8_sharpe_guard (fun _ => 100) (fun _ => 0) 10000 (1 / 1000) 1).2.1 (Or.inl (by omega))

/-! ### Claim C5 — indicator engine totality -/

/-- C5 (amended): on any series the indicator engine raises no error; the
moving averages, EMAs, RSI, `bb_middle` and the MACD family are total
(value-bearing at every row, as their `Q`-valued types here show), the first
SMA values equal the first close, but the Bollinger `bb_upper`/`bb_lower`
bands are null exactly at row 0, where the one-observation window has no
sample standard deviation. -/
theorem C5_indicator_columns (close : ℕ → ℚ) :
    sma_col 20 close 0 = close 0 ∧ sma_col 50 close 0 = close 0 ∧
      (∀ t : ℕ, (bb_upper_col close t).isSome ↔ t ≠ 0) ∧
      (∀ t : ℕ, (bb_lower_col close t).isSome ↔ t ≠ 0) := by
  refine ⟨?_, ?_, ?_, ?_⟩
  · show rollMean 20 close 0 = close 0
    rw [rollMean, winSum, winLen]
    norm_num
  · show rollMean 50 close 0 = close 0
    rw [rollMean, winSum, winLen]
    norm_num
  · intro t
    cases t with
    | zero => simp [bb_upper_col, bb_std_col]
    | succ m => simp [bb_upper_col, bb_std_col]
  · intro t
    cases t with
    | zero => simp [bb_lower_col, bb_std_col]
    | succ m => simp [bb_lower_col, bb_std_col]

/-- C5 counterexample: on a concrete series the upper Bollinger band is null
at the first row, so not every indicator column holds a non-null value at
every row. -/
theorem C5_bb_upper_null_at_first_row : bb_upper_col (fun _ => 1) 0 = none := rfl

/-! ### Claim C6 — RSI on a flat series -/

/-- C6 (amended): on a flat series the RSI computation is total (no division
by zero thanks to the epsilon, no NaN) and evaluates to 0 at every
timestamp — gains and losses are both identically zero, so `rs = 0` and
`RSI = 100 - 100 / (1 + 0) = 0`, not 50. -/
theorem C6_flat_series_rsi_zero (c : ℚ) (t : ℕ) : rsi_col 14 (fun _ => c) t = 0 := by
  have hg : ∀ s, gain_col (fun _ => c) s = 0 := by
    intro s
    cases s with
    | zero => rfl
    | succ m => simp [gain_col]
  have hl : ∀ s, loss_col (fun _ => c) s = 0 := by
    intro s
    cases s with
    | zero => rfl
    | succ m => simp [loss_col]
  have hrm : ∀ g : ℕ → ℚ, (∀ s, g s = 0) → rollMean 14 g t = 0 := by
    intro g hgz
    rw [rollMean, winSum]
    simp [hgz]
  rw [rsi_col, rs_col, hrm _ hg, hrm _ hl, rsiEps]
  norm_num

/-- C6 counterexample: on the flat series constantly 5, the RSI at
timestamp 3 evaluates to 0, not to the claimed 50. -/
theorem C6_flat_series_rsi_not_fifty :
    rsi_col 14 (fun _ => (5 : ℚ)) 3 = 0 ∧ (0 : ℚ) ≠ 50 := by
  constructor
  · have hg : ∀ s, gain_col (fun _ => (5 : ℚ)) s = 0 := by
      intro s
      cases s with
      | zero => rfl
      | succ m => simp [gain_col]
    have hl : ∀ s, loss_col (fun _ => (5 : ℚ)) s = 0 := by
      intro s
      cases s with
      | zero => rfl
      | succ m => simp [loss_col]
    rw [rsi_col, rs_col, rollMean, rollMean, winSum, winSum]
    simp only [hg, hl]
    rw [rsiEps]
    norm_num
  · norm_num

/-! ### Claim C10 — pattern detectors on short series -/

/-- C10: on a series of at most `2 * window` bars every detector's scan range
`range(window, n - window)` is empty, so all six marker columns are
identically zero and no detector fails. -/
theorem C10_short_series_no_patterns (high low close : ℕ → ℚ) (w n : ℕ)
    (h : n ≤ 2 * w) (t : ℕ) :
    detect_head_shoulders high low w n t = 0 ∧
      detect_double_top_bottom high low DTKind.top w n t = 0 ∧
      detect_double_top_bottom high low DTKind.bottom w n t = 0 ∧
      detect_triangle_patterns high low close TriKind.ascending w n t = 0 ∧
      detect_triangle_patterns high low close TriKind.descending w n t = 0 ∧
      detect_triangle_patterns high low close TriKind.symmetrical w n t = 0 := by
  have hl : loopIdx w n = [] := by
    rw [loopIdx, Nat.sub_eq_zero_of_le h]
    rfl
  refine ⟨?_, ?_, ?_, ?_, ?_, ?_⟩
  · rw [detect_head_shoulders, hl]; rfl
  · rw [detect_double_top_bottom, hl]; rfl
  · rw [detect_double_top_bottom, hl]; rfl
  · rw [detect_triangle_patterns, hl]; rfl
  · rw [detect_triangle_patterns, hl]; rfl
  · rw [detect_triangle_patterns, hl]; rfl

/-- C10 witness: a five-bar series with the default window 30 gets all-zero
marker columns. -/
theorem C10_short_series_no_patterns_witness :
    (5 : ℕ) ≤ 2 * 30 ∧
      (detect_head_shoulders (fun _ => 1) (fun _ => 1) 30 5 0 = 0 ∧
        detect_double_top_bottom (fun _ => 1) (fun _ => 1) DTKind.top 30 5 0 = 0 ∧
        detect_double_top_bottom (fun _ => 1) (fun _ => 1) DTKind.bottom 30 5 0 = 0 ∧
        detect_triangle_patterns (fun _ => 1) (fun _ => 1) (fun _ => 1)
          TriKind.ascending 30 5 0 = 0 ∧
        detect_triangle_patterns (fun _ => 1) (fun _ => 1) (fun _ => 1)
          TriKind.descending 30 5 0 = 0 ∧
        detect_triangle_patterns (fun _ => 1) (fun _ => 1) (fun _ => 1)
          TriKind.symmetrical 30 5 0 = 0) :=
  ⟨by norm_num,
    C10_short_series_no_patterns (fun _ => 1) (fun _ => 1) (fun _ => 1) 30 5 (by norm_num) 0⟩

/-! ### Claim C9 — stage purity -/

/-- C9 (amended): the pattern engine, the signal generator and the backtester
leave their input tables unchanged and return fresh derived tables, but the
indicator engine mutates the table it is handed — the table it returns is
the very input object, now carrying the indicator columns. -/
theorem C9_stage_purity :
    (∀ f : PyFrame, (detect_all_patterns f).1 = f) ∧
      (∀ f : PyFrame, (generate_signals_stage f).1 = f) ∧
      (∀ (d : PyFrame) (s : ℕ → SignalRow ℝ) (capital commission : ℚ),
        (run_backtest_stage d s capital commission).1 = (d, s)) ∧
      (∀ f : PyFrame, (calculate_all_indicators f).1 = (calculate_all_indicators f).2) :=
  ⟨fun _ => rfl, fun _ => rfl, fun _ _ _ _ => rfl, fun _ => rfl⟩

/-- A raw OHLCV frame with no derived columns, as handed to the indicator
engine at the start of the pipeline. -/
def rawFrame : PyFrame :=
  { nrows := 1
    openC := fun _ => 1
    highC := fun _ => 1
    lowC := fun _ => 1
    closeC := fun _ => 1
    volumeC := fun _ => 1
    sma_20 := none
    sma_50 := none
    ema_12 := none
    ema_26 := none
    rsi_14 := none
    bb_middle := none
    bb_upper := none
    bb_lower := none
    macdC := none
    macd_signalC := none
    macd_hist := none
    hs_pattern := none
    double_top := none
    double_bottom := none
    triangle_asc := none
    triangle_desc := none
    triangle_sym := none
    support := none
    resistance := none }

/-- C9 counterexample: running the indicator engine on a raw frame leaves the
input object changed — its `sma_20` column goes from absent to present, so
the stage is not pure over an immutable input. -/
theorem C9_indicator_engine_mutates_input :
    (calculate_all_indicators rawFrame).1 ≠ rawFrame := by
  intro h
  have h2 := congrArg PyFrame.sma_20 h
  rw [show (calculate_all_indicators rawFrame).1.sma_20 = some (sma_col 20 rawFrame.closeC)
      from rfl] at h2
  exact Option.noConfusion (h2.trans (show rawFrame.sma_20 = none from rfl))

end StockSig
